import Mathlib

/-!
Verification of the marble-backend rule expression engine.

Shallow embedding of the Go sources:
- Go maps are modelled as association lists (`List (String × α)`); reading a
  missing key yields the Go zero value of the value type, as in Go.
- A Go runtime panic is modelled as the `none` result of an `Option`-valued
  function.
- Go `float64` values are modelled as exact rationals (`ℚ`).
- Go `error` values are modelled by explicit error inductives; `(value, errs)`
  return pairs become `Option Value × List EvalError`.
-/

namespace Marble

namespace App

/-- Data type enumeration from src/app/data_model.go (Bool is the zero value). -/
inductive DataType where
  | bool
  | int
  | float
  | string
  deriving DecidableEq, Repr

/-- Field from src/app/data_model.go. -/
structure Field where
  DataType : DataType
  deriving DecidableEq, Repr

/-- LinkToSingle from src/app/data_model.go. -/
structure LinkToSingle where
  LinkedTableName : String
  ParentFieldName : String
  ChildFieldName : String
  deriving DecidableEq, Repr

/-- Table from src/app/data_model.go; the two Go maps are association lists. -/
structure Table where
  Fields : List (String × Field)
  LinksToSingle : List (String × LinkToSingle)
  deriving DecidableEq, Repr

/-- DataModel from src/app/data_model.go. -/
structure DataModel where
  Tables : List (String × Table)
  deriving DecidableEq, Repr

/-- Go zero value of Field: DataType is the zero enum value Bool. -/
def Field.goZero : Field := { DataType := DataType.bool }

/-- Go zero value of Table: both maps are nil. -/
def Table.goZero : Table := { Fields := [], LinksToSingle := [] }

/-- Go zero value of LinkToSingle: all strings empty. -/
def LinkToSingle.goZero : LinkToSingle :=
  { LinkedTableName := "", ParentFieldName := "", ChildFieldName := "" }

/-- Go map read `m[k]`: the stored value, or the zero value when absent. -/
def goMapGet (m : List (String × α)) (k : String) (zero : α) : α :=
  match m.lookup k with
  | some v => v
  | none => zero

/-- DataModel.FieldAt from src/app/data_model.go. `none` models the Go runtime
panic raised by `path[0]` when `path` is empty; every other input returns a
Field, defaulting missing map keys to Go zero values. -/
def DataModel.FieldAt (dm : DataModel) (rootName : String) (path : List String) :
    Option Field :=
  match path with
  | [] => none
  | [f] => some (goMapGet (goMapGet dm.Tables rootName Table.goZero).Fields f Field.goZero)
  | f :: rest =>
    DataModel.FieldAt dm
      (goMapGet (goMapGet dm.Tables rootName Table.goZero).LinksToSingle f
        LinkToSingle.goZero).LinkedTableName rest

/-- Concrete data model used as the test bed: table orders with a string
status field, a float amount field and a customer link to table customers. -/
def ordersDataModel : DataModel :=
  { Tables :=
      [ ("orders",
          { Fields := [("status", { DataType := DataType.string }),
                       ("amount", { DataType := DataType.float })],
            LinksToSingle :=
              [("customer",
                { LinkedTableName := "customers", ParentFieldName := "object_id",
                  ChildFieldName := "customer_id" })] }),
        ("customers",
          { Fields := [("name", { DataType := DataType.string })],
            LinksToSingle := [] }) ] }

end App

namespace Ast

/-- Runtime values flowing through the evaluator (Go `any`). Strings, bools,
64-bit integers, floats (as exact rationals), timestamps (as epoch instants),
the nil interface value, slices, and the ast.Filter descriptor
`{TableName, FieldName, Operator, Value}` (FilterOperator is a Go string
type, so the Operator field is a String). -/
inductive Value where
  | vStr (s : String)
  | vBool (b : Bool)
  | vInt (n : Int)
  | vFloat (q : ℚ)
  | vTime (t : Int)
  | vNull
  | vList (elems : List Value)
  | vFilter (tableName fieldName operator : String) (value : Option Value)
  deriving Repr

/-- Whether a Go value is a float64 (reflect.TypeOf(value) == float64). -/
def Value.isFloat : Value → Bool
  | .vFloat _ => true
  | _ => false

/-- Structured evaluation errors. Sentinel kinds come from the ast package
(ErrArgumentInvalidType, ErrRuntimeExpression, ...); `wrap` models
errors.Wrap(base, msg), `join` models errors.Join, `namedArgumentError`
models ast.NewNamedArgumentError(name), and `notFoundInDataModel` stands for
the error returned by the field-type lookup against the data model. -/
inductive EvalError where
  | argumentMissing
  | argumentInvalidType
  | runtimeExpression
  | notFoundInDataModel
  | namedArgumentError (argumentName : String)
  | wrap (base : EvalError) (msg : String)
  | join (errs : List EvalError)
  deriving Repr

/-- Result of an operator's Evaluate: Go `(any, []error)`. -/
def EvalResult : Type := Option Value × List EvalError

/-- ast.Arguments: positional Args and NamedArgs (Go map as an assoc list). -/
structure Arguments where
  Args : List Value
  NamedArgs : List (String × Value)

/-- ast.NodeEvaluation from src/models/ast/ast_node_evaluation.go. The
NamedChildren Go map is modelled as an association list; its list order
stands for the (unspecified) Go map iteration order. -/
inductive NodeEvaluation where
  | mk (ReturnValue : Option Value) (Errors : List EvalError)
       (Children : List NodeEvaluation)
       (NamedChildren : List (String × NodeEvaluation))

mutual

/-- Body of the closure addEvaluationErrors in NodeEvaluation.AllErrors:
appends the node's own errors to the accumulator, then folds over Children,
then over NamedChildren. -/
def addEvaluationErrors (errs : List EvalError) : NodeEvaluation → List EvalError
  | .mk _ nodeErrs children named =>
    addNamedChildrenErrors (addChildrenErrors (errs ++ nodeErrs) children) named

/-- The `for _, child := range child.Children` loop of AllErrors. -/
def addChildrenErrors (errs : List EvalError) : List NodeEvaluation → List EvalError
  | [] => errs
  | c :: cs => addChildrenErrors (addEvaluationErrors errs c) cs

/-- The `for _, child := range child.NamedChildren` loop of AllErrors. -/
def addNamedChildrenErrors (errs : List EvalError) :
    List (String × NodeEvaluation) → List EvalError
  | [] => errs
  | (_, c) :: cs => addNamedChildrenErrors (addEvaluationErrors errs c) cs

end

/-- NodeEvaluation.AllErrors from src/models/ast/ast_node_evaluation.go. -/
def NodeEvaluation.AllErrors (root : NodeEvaluation) : List EvalError :=
  addEvaluationErrors [] root

mutual

/-- Pre-order flattening of a result tree: the node's own errors, then the
errors of the positional children left to right, then the errors of the
named children. -/
def flattenErrors : NodeEvaluation → List EvalError
  | .mk _ nodeErrs children named =>
    nodeErrs ++ flattenChildrenErrors children ++ flattenNamedErrors named

/-- Pre-order flattening of a list of positional children. -/
def flattenChildrenErrors : List NodeEvaluation → List EvalError
  | [] => []
  | c :: cs => flattenErrors c ++ flattenChildrenErrors cs

/-- Pre-order flattening of a list of named children. -/
def flattenNamedErrors : List (String × NodeEvaluation) → List EvalError
  | [] => []
  | (_, c) :: cs => flattenErrors c ++ flattenNamedErrors cs

end

end Ast

namespace Evaluate

/-- Modelled from the spec: MakeEvaluateError is not under src; an operator
failure returns no value together with the error. -/
def MakeEvaluateError (e : Ast.EvalError) : Ast.EvalResult := (none, [e])

/-- Modelled from the spec: MakeEvaluateResult is not under src; a successful
operator evaluation returns the value and no errors. -/
def MakeEvaluateResult (v : Ast.Value) : Ast.EvalResult := (some v, [])

/-- Modelled from the spec: leftAndRight is not under src; Equal "resolves
both operands' concrete values", so the positional argument list must carry
exactly a left and a right operand. -/
def leftAndRight : List Ast.Value → Except Ast.EvalError (Ast.Value × Ast.Value)
  | [l, r] => .ok (l, r)
  | _ => .error (.wrap .argumentMissing "Equal Evaluate expects a left and a right operand")

/-- Modelled from the spec: adaptArgumentToString is not under src; the
string representation applies exactly to string values (the spec's
`Equal("a", true)` fails, so no cross-type coercion into string exists). -/
def adaptArgumentToString : Ast.Value → Except Ast.EvalError String
  | .vStr s => .ok s
  | _ => .error (.wrap .argumentInvalidType "argument is not a string")

/-- Modelled from the spec: adaptArgumentToBool is not under src; the boolean
representation applies exactly to boolean values. -/
def adaptArgumentToBool : Ast.Value → Except Ast.EvalError Bool
  | .vBool b => .ok b
  | _ => .error (.wrap .argumentInvalidType "argument is not a boolean")

/-- Modelled from the spec: promoteArgumentToInt64 is not under src; integer
promotion accepts integers and floats carrying a whole number (the spec's
`Equal(3, 3.0)` succeeds on the integer rung while `Equal(1.0, 1.0001)`
must fall through to the float rung and evaluate false). -/
def promoteArgumentToInt64 : Ast.Value → Except Ast.EvalError Int
  | .vInt n => .ok n
  | .vFloat q =>
    if q.den = 1 then .ok q.num
    else .error (.wrap .argumentInvalidType "float argument is not a whole number")
  | _ => .error (.wrap .argumentInvalidType "argument cannot be promoted to an integer")

/-- Modelled from the spec: promoteArgumentToFloat64 is not under src; the
float representation accepts floats and promotes integers. -/
def promoteArgumentToFloat64 : Ast.Value → Except Ast.EvalError ℚ
  | .vFloat q => .ok q
  | .vInt n => .ok (n : ℚ)
  | _ => .error (.wrap .argumentInvalidType "argument cannot be promoted to a float")

/-- Modelled from the spec: adaptArgumentToTime is not under src; the
timestamp representation applies exactly to timestamp values. -/
def adaptArgumentToTime : Ast.Value → Except Ast.EvalError Int
  | .vTime t => .ok t
  | _ => .error (.wrap .argumentInvalidType "argument is not a time")

/-- Modelled from the spec: adaptLeftAndRight is not under src; it adapts
both operands with the same adapter and collects the errors of both sides
(the caller only tests whether the error list is empty). -/
def adaptLeftAndRight (l r : Ast.Value) (adapter : Ast.Value → Except Ast.EvalError α) :
    Except (List Ast.EvalError) (α × α) :=
  match adapter l, adapter r with
  | .ok a, .ok b => .ok (a, b)
  | .error e, .ok _ => .error [e]
  | .ok _, .error e => .error [e]
  | .error e1, .error e2 => .error [e1, e2]

/-- floatEqualityThreshold = 1e-8 from src/usecases/ast_eval/evaluate/eval_equal.go. -/
def floatEqualityThreshold : ℚ := 1 / 100000000

/-- Equal.Evaluate from src/usecases/ast_eval/evaluate/eval_equal.go (the
unused context.Context parameter is dropped): try string, boolean, integer,
float (absolute tolerance) and timestamp equality in this order, returning
the first rung where both operands adapt, and an ArgumentInvalidType error
when no rung applies. -/
def Equal.Evaluate (arguments : Ast.Arguments) : Ast.EvalResult :=
  match leftAndRight arguments.Args with
  | .error err => MakeEvaluateError err
  | .ok (leftAny, rightAny) =>
    match adaptLeftAndRight leftAny rightAny adaptArgumentToString with
    | .ok (l, r) => MakeEvaluateResult (.vBool (l == r))
    | .error _ =>
      match adaptLeftAndRight leftAny rightAny adaptArgumentToBool with
      | .ok (l, r) => MakeEvaluateResult (.vBool (l == r))
      | .error _ =>
        match adaptLeftAndRight leftAny rightAny promoteArgumentToInt64 with
        | .ok (l, r) => MakeEvaluateResult (.vBool (l == r))
        | .error _ =>
          match adaptLeftAndRight leftAny rightAny promoteArgumentToFloat64 with
          | .ok (l, r) =>
            MakeEvaluateResult (.vBool (decide (|l - r| < floatEqualityThreshold)))
          | .error _ =>
            match adaptLeftAndRight leftAny rightAny adaptArgumentToTime with
            | .ok (l, r) => MakeEvaluateResult (.vBool (l == r))
            | .error _ =>
              MakeEvaluateError (.wrap .argumentInvalidType
                "all arguments to Equal Evaluate must be string, boolean, time, int or float")

/-- Typed equality under one representation, stated for the specification:
`some b` when both operands coerce into the representation (b the equality
verdict there), `none` when at least one does not. -/
def representationEquality (adapter : Ast.Value → Except Ast.EvalError α)
    (eq : α → α → Bool) (l r : Ast.Value) : Option Bool :=
  match adapter l, adapter r with
  | .ok a, .ok b => some (eq a b)
  | _, _ => none

/-- The spec's fixed priority ladder for Equal: string, then boolean, then
integer, then float with absolute tolerance 1e-8, then timestamp. -/
def equalLadderSteps (l r : Ast.Value) : List (Option Bool) :=
  [ representationEquality adaptArgumentToString (fun a b => a == b) l r,
    representationEquality adaptArgumentToBool (fun a b => a == b) l r,
    representationEquality promoteArgumentToInt64 (fun a b => a == b) l r,
    representationEquality promoteArgumentToFloat64
      (fun a b => decide (|a - b| < floatEqualityThreshold)) l r,
    representationEquality adaptArgumentToTime (fun a b => a == b) l r ]

/-- First applicable rung of a ladder. -/
def firstApplicable : List (Option Bool) → Option Bool
  | [] => none
  | some b :: _ => some b
  | none :: rest => firstApplicable rest

/-- Equality as the spec words it: the result of the first representation of
the priority ladder into which both operands successfully coerce, and an
ArgumentInvalidType failure when no representation applies to both. -/
def equalSpec (l r : Ast.Value) : Ast.EvalResult :=
  match firstApplicable (equalLadderSteps l r) with
  | some b => (some (.vBool b), [])
  | none =>
    (none, [.wrap .argumentInvalidType
      "all arguments to Equal Evaluate must be string, boolean, time, int or float"])

end Evaluate

namespace Ast

/-- Modelled from the spec: the ast.FilterOperator constants are not under
src (FilterOperator is a Go string type, witnessed by the conversion
`ast.FilterOperator(operatorStr)` in eval_equal.go); the spec enumerates the
members equal, not-equal, greater, greater-or-equal, lesser,
lesser-or-equal, is-in-list, is-not-in-list, is-empty, is-not-empty,
starts-with, ends-with, fuzzy-match. -/
def FILTER_EQUAL : String := "equal"

/-- Modelled from the spec: see FILTER_EQUAL. -/
def FILTER_NOT_EQUAL : String := "not-equal"

/-- Modelled from the spec: see FILTER_EQUAL. -/
def FILTER_GREATER : String := "greater"

/-- Modelled from the spec: see FILTER_EQUAL. -/
def FILTER_GREATER_OR_EQUAL : String := "greater-or-equal"

/-- Modelled from the spec: see FILTER_EQUAL. -/
def FILTER_LESSER : String := "lesser"

/-- Modelled from the spec: see FILTER_EQUAL. -/
def FILTER_LESSER_OR_EQUAL : String := "lesser-or-equal"

/-- Modelled from the spec: see FILTER_EQUAL. -/
def FILTER_IS_IN_LIST : String := "is-in-list"

/-- Modelled from the spec: see FILTER_EQUAL. -/
def FILTER_IS_NOT_IN_LIST : String := "is-not-in-list"

/-- Modelled from the spec: see FILTER_EQUAL. -/
def FILTER_IS_EMPTY : String := "is-empty"

/-- Modelled from the spec: see FILTER_EQUAL. -/
def FILTER_IS_NOT_EMPTY : String := "is-not-empty"

/-- Modelled from the spec: see FILTER_EQUAL. -/
def FILTER_STARTS_WITH : String := "starts-with"

/-- Modelled from the spec: see FILTER_EQUAL. -/
def FILTER_ENDS_WITH : String := "ends-with"

/-- Modelled from the spec: see FILTER_EQUAL. -/
def FILTER_FUZZY_MATCH : String := "fuzzy-match"

end Ast

namespace Models

/-- Modelled from the spec: models.DataType is not under src (src/app holds
an older four-valued DataType); eval_equal.go names the constants
models.Bool, models.Int, models.Float, models.String and models.Timestamp. -/
inductive DataType where
  | bool
  | int
  | float
  | string
  | timestamp
  deriving DecidableEq, Repr

/-- Modelled from the spec: the Go String() rendering of models.DataType,
mirroring the rendering of the app DataType visible in src for the shared
constants. -/
def DataType.goString : DataType → String
  | .bool => "Bool"
  | .int => "Int"
  | .float => "Float"
  | .string => "String"
  | .timestamp => "Timestamp"

/-- Modelled from the spec: a many-to-one link {linked table name, parent key
field, child key field} of the models data model. -/
structure LinkToSingle where
  LinkedTableName : String
  ParentFieldName : String
  ChildFieldName : String
  deriving DecidableEq, Repr

/-- Modelled from the spec: a models table maps field names to declared
scalar types and link names to links. -/
structure Table where
  Fields : List (String × DataType)
  LinksToSingle : List (String × LinkToSingle)

/-- Modelled from the spec: the models data model maps table names to
tables. -/
structure DataModel where
  Tables : List (String × Table)

end Models

namespace Evaluate

/-- Modelled from the spec: getFieldType is not under src; the Filter
operator "rejects unknown table/field names against the DataModel", so the
lookup resolves the table then the field and fails when either is absent. -/
def getFieldType (dm : Models.DataModel) (tableName fieldName : String) :
    Except Ast.EvalError Models.DataType :=
  match dm.Tables.lookup tableName with
  | none => .error .notFoundInDataModel
  | some table =>
    match table.Fields.lookup fieldName with
    | none => .error .notFoundInDataModel
    | some dt => .ok dt

/-- Modelled from the spec: AdaptNamedArgument is not under src; it resolves
a named argument and adapts it, failing with an ArgumentMissing error
attributed to the name when the argument is absent. -/
def AdaptNamedArgument (namedArgs : List (String × Ast.Value)) (name : String)
    (adapter : Ast.Value → Except Ast.EvalError α) : Except Ast.EvalError α :=
  match namedArgs.lookup name with
  | none =>
    .error (.join [.wrap .argumentMissing ("missing named argument " ++ name),
      .namedArgumentError name])
  | some v => adapter v

/-- The error of a fallible result, when there is one. -/
def errOf : Except Ast.EvalError α → Option Ast.EvalError
  | .error e => some e
  | .ok _ => none

/-- Modelled from the spec: filterNilErrors is not under src; it keeps the
non-nil errors, in order. -/
def filterNilErrors (errs : List (Option Ast.EvalError)) : List Ast.EvalError :=
  errs.filterMap id

/-- Modelled from the spec: adaptArgumentToListOfStrings is not under src;
list operators "normalize the value into a list of strings", accepting a
slice whose members are strings. -/
def adaptArgumentToListOfStrings : Ast.Value → Except Ast.EvalError (List String)
  | .vList elems => elems.mapM adaptArgumentToString
  | _ => .error (.wrap .argumentInvalidType "argument is not a list of strings")

/-- Modelled from the spec: promoteArgumentToDataType is not under src; it
promotes a value to the field's declared scalar type. -/
def promoteArgumentToDataType (v : Ast.Value) : Models.DataType → Except Ast.EvalError Ast.Value
  | .bool => (adaptArgumentToBool v).map Ast.Value.vBool
  | .int => (promoteArgumentToInt64 v).map Ast.Value.vInt
  | .float => (promoteArgumentToFloat64 v).map Ast.Value.vFloat
  | .string => (adaptArgumentToString v).map Ast.Value.vStr
  | .timestamp => (adaptArgumentToTime v).map Ast.Value.vTime

/-- validTypeForFilterOperators from src/usecases/ast_eval/evaluate/eval_equal.go:
the static per-operator table of allowed declared field types. -/
def validTypeForFilterOperators : List (String × List Models.DataType) :=
  [ (Ast.FILTER_EQUAL, [.bool, .int, .float, .string, .timestamp]),
    (Ast.FILTER_NOT_EQUAL, [.bool, .int, .float, .string, .timestamp]),
    (Ast.FILTER_GREATER, [.int, .float, .string, .timestamp]),
    (Ast.FILTER_GREATER_OR_EQUAL, [.int, .float, .string, .timestamp]),
    (Ast.FILTER_LESSER, [.int, .float, .string, .timestamp]),
    (Ast.FILTER_LESSER_OR_EQUAL, [.int, .float, .string, .timestamp]),
    (Ast.FILTER_IS_IN_LIST, [.string]),
    (Ast.FILTER_IS_NOT_IN_LIST, [.string]),
    (Ast.FILTER_IS_EMPTY, [.bool, .int, .float, .string, .timestamp]),
    (Ast.FILTER_IS_NOT_EMPTY, [.bool, .int, .float, .string, .timestamp]),
    (Ast.FILTER_STARTS_WITH, [.string]),
    (Ast.FILTER_ENDS_WITH, [.string]),
    (Ast.FILTER_FUZZY_MATCH, [.string]) ]

/-- FilterEvaluator from src/usecases/ast_eval/evaluate/eval_equal.go. -/
structure FilterEvaluator where
  DataModel : Models.DataModel

/-- FilterEvaluator.Evaluate from src/usecases/ast_eval/evaluate/eval_equal.go
(the unused context.Context parameter is dropped). A lookup returning `none`
or the nil value models the Go `arguments.NamedArgs["value"] == nil` test. -/
def FilterEvaluator.Evaluate (f : FilterEvaluator) (arguments : Ast.Arguments) :
    Ast.EvalResult :=
  let tableNameR := AdaptNamedArgument arguments.NamedArgs "tableName" adaptArgumentToString
  let fieldNameR := AdaptNamedArgument arguments.NamedArgs "fieldName" adaptArgumentToString
  let operatorR := AdaptNamedArgument arguments.NamedArgs "operator" adaptArgumentToString
  match tableNameR, fieldNameR, operatorR with
  | .ok tableName, .ok fieldName, .ok operatorStr =>
    (match getFieldType f.DataModel tableName fieldName with
      | .error err =>
        MakeEvaluateError (.join [.wrap err ("field type for " ++ tableName ++ "." ++
          fieldName ++ " not found in data model in Evaluate filter"),
          .namedArgumentError "fieldName"])
      | .ok fieldType =>
        let operator := operatorStr
        match validTypeForFilterOperators.lookup operator with
        | none =>
          MakeEvaluateError (.join [.wrap .runtimeExpression ("operator " ++ operator ++
            " is not valid in Evaluate filter"), .namedArgumentError "operator"])
        | some validTypes =>
          if fieldType ∈ validTypes then
            match arguments.NamedArgs.lookup "value" with
            | none => (some (.vFilter tableName fieldName operator none), [])
            | some .vNull => (some (.vFilter tableName fieldName operator none), [])
            | some value =>
              let promoted : Except Ast.EvalError Ast.Value :=
                if operator == Ast.FILTER_FUZZY_MATCH then .ok value
                else if fieldType == Models.DataType.int && value.isFloat then .ok value
                else if operator == Ast.FILTER_IS_IN_LIST ||
                    operator == Ast.FILTER_IS_NOT_IN_LIST then
                  (adaptArgumentToListOfStrings value).map
                    (fun ss => Ast.Value.vList (ss.map Ast.Value.vStr))
                else promoteArgumentToDataType value fieldType
              match promoted with
              | .error e =>
                MakeEvaluateError (.join [.wrap .argumentInvalidType
                  ("value is not compatible with selected field " ++ tableName ++ "." ++
                    fieldName ++ " in Evaluate filter"),
                  .namedArgumentError "value", e])
              | .ok promotedValue =>
                (some (.vFilter tableName fieldName operator (some promotedValue)), [])
          else
            MakeEvaluateError (.join [.wrap .argumentInvalidType ("field type " ++
              fieldType.goString ++ " is not valid for operator " ++ operator ++
              " in Evaluate filter"), .namedArgumentError "fieldName"]))
  | _, _, _ =>
    (none, filterNilErrors [errOf tableNameR, errOf fieldNameR, errOf operatorR])

/-- Concrete models data model for the Filter test bed: table orders with a
string status field and a float amount field. -/
def modelsOrders : Models.DataModel :=
  { Tables :=
      [ ("orders",
          { Fields := [("status", Models.DataType.string),
                       ("amount", Models.DataType.float)],
            LinksToSingle := [] }) ] }

/-- Concrete Filter invocation: tableName=orders, fieldName=status,
operator=greater, no value argument. -/
def greaterOnStatusArgs : Ast.Arguments :=
  { Args := [],
    NamedArgs := [("tableName", .vStr "orders"), ("fieldName", .vStr "status"),
      ("operator", .vStr Ast.FILTER_GREATER)] }

end Evaluate

namespace Operators

/-- The OperatorBool implementations visible in the operators package
(True, False, EqBool with two OperatorBool operands). -/
inductive OperatorBool where
  | trueOp
  | falseOp
  | eqBool (Left Right : OperatorBool)
  deriving DecidableEq, Repr

/-- OperatorBool.Eval: True yields true, False yields false, EqBool compares
the boolean results of its operands (the DataAccessor is unused by these
three variants and is dropped). -/
def OperatorBool.Eval : OperatorBool → Bool
  | .trueOp => true
  | .falseOp => false
  | .eqBool l r => l.Eval == r.Eval

/-- Which concrete operator type a registered constructor instantiates. -/
inductive BoolOpKind where
  | kTrue
  | kFalse
  | kEqBool
  deriving DecidableEq, Repr

/-- A registry constructor either instantiates one of the OperatorBool
variants, or instantiates an Operator that does not implement OperatorBool
(the registry is open: init-time registrations outside src may add such
entries, which unmarshalOperatorBool must reject by its cast check). -/
inductive RegistryEntry where
  | boolOp (kind : BoolOpKind)
  | nonBoolOp
  deriving DecidableEq, Repr

/-- operatorFromType as populated by the init() registrations visible in the
src operators package: TRUE, FALSE and EQBOOL, all boolean operators. -/
def operatorFromType : List (String × RegistryEntry) :=
  [("TRUE", .boolOp .kTrue), ("FALSE", .boolOp .kFalse), ("EQBOOL", .boolOp .kEqBool)]

/-- The wire envelope `{"type": ..., "data": ...}`: the data payload is
either a scalar string (the shape emitted for TRUE and FALSE) or an object
with left and right operand envelopes (the shape emitted for EQBOOL). -/
inductive Envelope where
  | strData (type : String) (data : String)
  | objData (type : String) (left right : Envelope)
  deriving DecidableEq, Repr

/-- The type discriminator of an envelope. -/
def Envelope.typeOf : Envelope → String
  | .strData ty _ => ty
  | .objData ty _ _ => ty

/-- Decode errors of unmarshalOperatorBool, mirroring the wrapped fmt.Errorf
chains: `notRegistered ty` is "operator ty not registered";
`castToBoolFailed ty` is "operator ty could not be cast to OperatorBool";
`unmarshalFailed ty e` is "operator ty could not be unmarshalled: e";
`leftOperand e` and `rightOperand e` are "unable to instantiate Left/Right
operator: e"; `intermediateRepr` is "unable to unmarshal operator to
intermediate left/right representation". -/
inductive UnmarshalError where
  | notRegistered (type : String)
  | castToBoolFailed (type : String)
  | intermediateRepr
  | unmarshalFailed (type : String) (cause : UnmarshalError)
  | leftOperand (cause : UnmarshalError)
  | rightOperand (cause : UnmarshalError)
  deriving Repr

/-- The innermost error of a wrapped decode-error chain (the last error of
the Go errors.Unwrap chain). -/
def UnmarshalError.rootCause : UnmarshalError → UnmarshalError
  | .unmarshalFailed _ e => e.rootCause
  | .leftOperand e => e.rootCause
  | .rightOperand e => e.rootCause
  | .notRegistered ty => .notRegistered ty
  | .castToBoolFailed ty => .castToBoolFailed ty
  | .intermediateRepr => .intermediateRepr

/-- unmarshalOperatorBool from the src operators package, parameterized by
the registry: look the discriminator up (failing with notRegistered when
absent), cast the constructed operator to OperatorBool (failing when the
entry is not a boolean operator), then unmarshal the data payload into the
operator: True and False accept any payload; EqBool requires a left/right
object and recursively decodes both operand slots, wrapping any nested
failure. -/
def unmarshalOperatorBool (registry : List (String × RegistryEntry)) :
    Envelope → Except UnmarshalError OperatorBool
  | .strData ty _ =>
    match registry.lookup ty with
    | none => .error (.notRegistered ty)
    | some .nonBoolOp => .error (.castToBoolFailed ty)
    | some (.boolOp .kTrue) => .ok .trueOp
    | some (.boolOp .kFalse) => .ok .falseOp
    | some (.boolOp .kEqBool) => .error (.unmarshalFailed ty .intermediateRepr)
  | .objData ty l r =>
    match registry.lookup ty with
    | none => .error (.notRegistered ty)
    | some .nonBoolOp => .error (.castToBoolFailed ty)
    | some (.boolOp .kTrue) => .ok .trueOp
    | some (.boolOp .kFalse) => .ok .falseOp
    | some (.boolOp .kEqBool) =>
      match unmarshalOperatorBool registry l with
      | .error e => .error (.unmarshalFailed ty (.leftOperand e))
      | .ok leftOp =>
        match unmarshalOperatorBool registry r with
        | .error e => .error (.unmarshalFailed ty (.rightOperand e))
        | .ok rightOp => .ok (.eqBool leftOp rightOp)

/-- MarshalJSON of the three OperatorBool variants: True and False emit
their discriminator with an empty string payload; EqBool emits EQBOOL with
the recursively encoded left and right operands. -/
def OperatorBool.MarshalJSON : OperatorBool → Envelope
  | .trueOp => .strData "TRUE" ""
  | .falseOp => .strData "FALSE" ""
  | .eqBool l r => .objData "EQBOOL" l.MarshalJSON r.MarshalJSON

/-- Whether the decoder reaches a node with an unregistered discriminator:
the node itself, or, when the node is a registered EqBool with a left/right
payload, one of its operand slots (True and False ignore their payload, so
nothing below them is an operand slot). -/
def hasUnregisteredNode (registry : List (String × RegistryEntry)) : Envelope → Bool
  | .strData ty _ => (registry.lookup ty).isNone
  | .objData ty l r =>
    match registry.lookup ty with
    | none => true
    | some (.boolOp .kEqBool) =>
      hasUnregisteredNode registry l || hasUnregisteredNode registry r
    | some _ => false

/-- Shape correctness of a serialized operator tree: no node whose
discriminator is registered as EqBool carries a scalar payload (every
encoded EqBool carries a left/right object, so encoder output always
satisfies this). -/
def wellShaped (registry : List (String × RegistryEntry)) : Envelope → Bool
  | .strData ty _ => !(registry.lookup ty == some (.boolOp .kEqBool))
  | .objData _ l r => wellShaped registry l && wellShaped registry r

/-- Concrete envelope for the registration-failure claim: an EQBOOL node
whose right operand slot carries the unregistered discriminator BOGUS. -/
def envelopeWithBogusRight : Envelope :=
  .objData "EQBOOL" (.strData "TRUE" "") (.strData "BOGUS" "x")

end Operators

end Marble

namespace Marble

/-- C8: for every data model and root table name, FieldAt with an empty path
hits the out-of-range index `path[0]` and panics (modelled as `none`) instead
of returning a field value or a structured error. -/
theorem fieldAt_empty_path_panics (dm : App.DataModel) (rootName : String) :
    dm.FieldAt rootName [] = none := rfl

/-- C3 counterexample: at the spec's own example input, FieldAt does not
return a structured error on an unrecognized link name - its return type has
no error component at all - and it does return a default field value, namely
the Go zero Field whose declared type is Bool. -/
theorem fieldAt_missing_link_returns_zero_field :
    App.ordersDataModel.FieldAt "orders" ["missing_link", "name"] =
      some { DataType := App.DataType.bool } := by decide

/-- C3 amended: for every data model, root table name, and non-empty path,
FieldAt always returns a field value and never panics; unrecognized link or
table names are silently defaulted to zero values, never reported as errors. -/
theorem fieldAt_nonempty_total (dm : App.DataModel) (rootName : String)
    (path : List String) (h : path ≠ []) :
    (dm.FieldAt rootName path).isSome := by
  induction path generalizing rootName with
  | nil => exact absurd rfl h
  | cons f rest ih =>
    cases rest with
    | nil => simp [App.DataModel.FieldAt]
    | cons g rest2 =>
      simpa [App.DataModel.FieldAt] using ih _ (by simp)

/-- C3 amended witness: the amended theorem applied at the spec's example. -/
theorem fieldAt_nonempty_total_witness :
    (App.ordersDataModel.FieldAt "orders" ["missing_link", "name"]).isSome :=
  fieldAt_nonempty_total App.ordersDataModel "orders" ["missing_link", "name"]
    (by decide)

mutual

/-- Helper: the accumulator-threading walk of AllErrors appends exactly the
pre-order flattening after the accumulator. -/
theorem addEvaluationErrors_eq (errs : List Ast.EvalError) (n : Ast.NodeEvaluation) :
    Ast.addEvaluationErrors errs n = errs ++ Ast.flattenErrors n := by
  match n with
  | .mk v nodeErrs children named =>
    rw [Ast.addEvaluationErrors, Ast.flattenErrors,
      addNamedChildrenErrors_eq, addChildrenErrors_eq]
    simp [List.append_assoc]

/-- Helper: the Children loop of AllErrors appends the children's pre-order
flattening after the accumulator. -/
theorem addChildrenErrors_eq (errs : List Ast.EvalError) (l : List Ast.NodeEvaluation) :
    Ast.addChildrenErrors errs l = errs ++ Ast.flattenChildrenErrors l := by
  match l with
  | [] => simp [Ast.addChildrenErrors, Ast.flattenChildrenErrors]
  | c :: cs =>
    rw [Ast.addChildrenErrors, Ast.flattenChildrenErrors, addChildrenErrors_eq,
      addEvaluationErrors_eq]
    simp [List.append_assoc]

/-- Helper: the NamedChildren loop of AllErrors appends the named children's
pre-order flattening after the accumulator. -/
theorem addNamedChildrenErrors_eq (errs : List Ast.EvalError)
    (l : List (String × Ast.NodeEvaluation)) :
    Ast.addNamedChildrenErrors errs l = errs ++ Ast.flattenNamedErrors l := by
  match l with
  | [] => simp [Ast.addNamedChildrenErrors, Ast.flattenNamedErrors]
  | (k, c) :: cs =>
    rw [Ast.addNamedChildrenErrors, Ast.flattenNamedErrors,
      addNamedChildrenErrors_eq, addEvaluationErrors_eq]
    simp [List.append_assoc]

end

/-- Helper: typed equality under one representation is determined by the
two-sided adapter used by the source. -/
theorem representationEquality_eq_adapt (adapter : Ast.Value → Except Ast.EvalError α)
    (eq : α → α → Bool) (l r : Ast.Value) :
    Evaluate.representationEquality adapter eq l r =
      (match Evaluate.adaptLeftAndRight l r adapter with
        | .ok (a, b) => some (eq a b)
        | .error _ => none) := by
  unfold Evaluate.representationEquality Evaluate.adaptLeftAndRight
  rcases adapter l with e1 | a <;> rcases adapter r with e2 | b <;> rfl

/-- C1: for every pair of operand values, Equal.Evaluate is the fixed
priority ladder string, then boolean, then integer, then float with absolute
tolerance 1e-8, then timestamp: it returns the equality verdict of the first
representation into which both operands coerce, and when no representation
applies to both it returns no value together with an ArgumentInvalidType
error. In particular Equal(3, 3.0) is true via integer promotion (the float
3.0 promotes to the integer 3), not via the float tolerance. -/
theorem equal_typed_equality_priority_ladder :
    (∀ l r : Ast.Value,
        Evaluate.Equal.Evaluate { Args := [l, r], NamedArgs := [] } =
          Evaluate.equalSpec l r)
    ∧ Evaluate.Equal.Evaluate
        { Args := [Ast.Value.vInt 3, Ast.Value.vFloat 3], NamedArgs := [] } =
        (some (Ast.Value.vBool true), [])
    ∧ Evaluate.promoteArgumentToInt64 (Ast.Value.vFloat 3) = Except.ok 3 := by
  refine ⟨?_, ?_, ?_⟩
  · intro l r
    have e1 := representationEquality_eq_adapt Evaluate.adaptArgumentToString
      (fun a b => a == b) l r
    have e2 := representationEquality_eq_adapt Evaluate.adaptArgumentToBool
      (fun a b => a == b) l r
    have e3 := representationEquality_eq_adapt Evaluate.promoteArgumentToInt64
      (fun a b => a == b) l r
    have e4 := representationEquality_eq_adapt Evaluate.promoteArgumentToFloat64
      (fun a b => decide (|a - b| < Evaluate.floatEqualityThreshold)) l r
    have e5 := representationEquality_eq_adapt Evaluate.adaptArgumentToTime
      (fun a b => a == b) l r
    simp only [Evaluate.Equal.Evaluate, Evaluate.equalSpec, Evaluate.equalLadderSteps,
      Evaluate.leftAndRight, e1, e2, e3, e4, e5]
    rcases Evaluate.adaptLeftAndRight l r Evaluate.adaptArgumentToString with f1 | ⟨a1, b1⟩ <;>
      rcases Evaluate.adaptLeftAndRight l r Evaluate.adaptArgumentToBool with f2 | ⟨a2, b2⟩ <;>
      rcases Evaluate.adaptLeftAndRight l r Evaluate.promoteArgumentToInt64 with f3 | ⟨a3, b3⟩ <;>
      rcases Evaluate.adaptLeftAndRight l r Evaluate.promoteArgumentToFloat64 with f4 | ⟨a4, b4⟩ <;>
      rcases Evaluate.adaptLeftAndRight l r Evaluate.adaptArgumentToTime with f5 | ⟨a5, b5⟩ <;>
      simp [Evaluate.firstApplicable, Evaluate.MakeEvaluateResult, Evaluate.MakeEvaluateError]
  · rfl
  · rfl

/-- C6: for every NodeEvaluation tree, AllErrors returns the pre-order
flattening of all node-local error lists: each node's own errors come before
any errors of its descendants, and the errors of the positional Children
(left to right) come before the errors of the NamedChildren. -/
theorem allErrors_is_preorder_flattening (root : Ast.NodeEvaluation) :
    root.AllErrors = Ast.flattenErrors root := by
  rw [Ast.NodeEvaluation.AllErrors, addEvaluationErrors_eq]
  simp

/-- C4 counterexample: on a data model where orders.status has declared type
String, Filter with operator greater does not fail: String is among the
allowed declared types for the greater operator in
validTypeForFilterOperators, so the call succeeds and returns a descriptor
with a nil value, with no error at all. -/
theorem filter_greater_on_string_succeeds :
    Evaluate.FilterEvaluator.Evaluate { DataModel := Evaluate.modelsOrders }
      Evaluate.greaterOnStatusArgs =
      (some (.vFilter "orders" "status" Ast.FILTER_GREATER none), []) := rfl

/-- C4 amended: for every data model in which table orders declares field
status with declared type Bool, evaluating Filter with tableName=orders,
fieldName=status, operator=greater fails with an ArgumentInvalidType error,
because ordering operators are not permitted on boolean declared field types
(String, by contrast, is permitted for ordering operators). -/
theorem filter_greater_on_bool_field_fails (dm : Models.DataModel)
    (args : Ast.Arguments)
    (hT : args.NamedArgs.lookup "tableName" = some (.vStr "orders"))
    (hF : args.NamedArgs.lookup "fieldName" = some (.vStr "status"))
    (hO : args.NamedArgs.lookup "operator" = some (.vStr Ast.FILTER_GREATER))
    (hft : Evaluate.getFieldType dm "orders" "status" = .ok .bool) :
    Evaluate.FilterEvaluator.Evaluate { DataModel := dm } args =
      (none, [.join [.wrap .argumentInvalidType
        ("field type Bool is not valid for operator " ++ Ast.FILTER_GREATER ++
          " in Evaluate filter"), .namedArgumentError "fieldName"]]) := by
  simp only [Evaluate.FilterEvaluator.Evaluate, Evaluate.AdaptNamedArgument, hT, hF, hO,
    Evaluate.adaptArgumentToString, hft]
  simp [Evaluate.validTypeForFilterOperators, Ast.FILTER_EQUAL, Ast.FILTER_NOT_EQUAL,
    Ast.FILTER_GREATER, Ast.FILTER_GREATER_OR_EQUAL, Ast.FILTER_LESSER,
    Ast.FILTER_LESSER_OR_EQUAL, Ast.FILTER_IS_IN_LIST, Ast.FILTER_IS_NOT_IN_LIST,
    Ast.FILTER_IS_EMPTY, Ast.FILTER_IS_NOT_EMPTY, Ast.FILTER_STARTS_WITH,
    Ast.FILTER_ENDS_WITH, Ast.FILTER_FUZZY_MATCH, Evaluate.MakeEvaluateError,
    Models.DataType.goString, List.lookup]

/-- C4 amended witness: the amended theorem applied to a concrete data model
where orders.status is declared Bool. -/
theorem filter_greater_on_bool_field_fails_witness :
    Evaluate.FilterEvaluator.Evaluate
      { DataModel :=
          { Tables := [("orders", { Fields := [("status", Models.DataType.bool)],
                                    LinksToSingle := [] })] } }
      Evaluate.greaterOnStatusArgs =
      (none, [.join [.wrap .argumentInvalidType
        ("field type Bool is not valid for operator " ++ Ast.FILTER_GREATER ++
          " in Evaluate filter"), .namedArgumentError "fieldName"]]) :=
  filter_greater_on_bool_field_fails
    { Tables := [("orders", { Fields := [("status", Models.DataType.bool)],
                              LinksToSingle := [] })] }
    Evaluate.greaterOnStatusArgs rfl rfl rfl rfl

/-- C7: for every Filter invocation whose tableName, fieldName and operator
named arguments are strings, whose field resolves in the data model, and
whose operator allows the field's declared type, an absent value argument
makes FilterEvaluator.Evaluate succeed with no errors and return a Filter
descriptor carrying that table name, field name and operator with a nil
Value. -/
theorem filter_absent_value_yields_nil_descriptor
    (dm : Models.DataModel) (args : Ast.Arguments) (t fl op : String)
    (ft : Models.DataType) (validTypes : List Models.DataType)
    (hT : args.NamedArgs.lookup "tableName" = some (.vStr t))
    (hF : args.NamedArgs.lookup "fieldName" = some (.vStr fl))
    (hO : args.NamedArgs.lookup "operator" = some (.vStr op))
    (hft : Evaluate.getFieldType dm t fl = .ok ft)
    (hvt : Evaluate.validTypeForFilterOperators.lookup op = some validTypes)
    (hmem : ft ∈ validTypes)
    (hval : args.NamedArgs.lookup "value" = none) :
    Evaluate.FilterEvaluator.Evaluate { DataModel := dm } args =
      (some (.vFilter t fl op none), []) := by
  simp only [Evaluate.FilterEvaluator.Evaluate, Evaluate.AdaptNamedArgument, hT, hF, hO,
    Evaluate.adaptArgumentToString, hft, hvt, hval]
  simp [hmem]

/-- C7 witness: the theorem applied to the concrete orders data model, field
amount (Float), operator greater, with the value argument absent. -/
theorem filter_absent_value_yields_nil_descriptor_witness :
    Evaluate.FilterEvaluator.Evaluate { DataModel := Evaluate.modelsOrders }
      { Args := [],
        NamedArgs := [("tableName", .vStr "orders"), ("fieldName", .vStr "amount"),
          ("operator", .vStr Ast.FILTER_GREATER)] } =
      (some (.vFilter "orders" "amount" Ast.FILTER_GREATER none), []) :=
  filter_absent_value_yields_nil_descriptor Evaluate.modelsOrders
    { Args := [],
      NamedArgs := [("tableName", .vStr "orders"), ("fieldName", .vStr "amount"),
        ("operator", .vStr Ast.FILTER_GREATER)] }
    "orders" "amount" Ast.FILTER_GREATER Models.DataType.float
    [.int, .float, .string, .timestamp] rfl rfl rfl rfl rfl (by decide) rfl

/-- C9: when the tableName and fieldName named arguments are strings that do
not resolve to a declared field, FilterEvaluator.Evaluate returns the
field-not-found error attributed to the named argument fieldName, even when
the operator argument is not a member of the filter-operator table: field
resolution is checked before operator validity, so the operator error is
never reported. -/
theorem filter_field_resolution_checked_before_operator
    (dm : Models.DataModel) (args : Ast.Arguments) (t fl op : String)
    (e : Ast.EvalError)
    (hT : args.NamedArgs.lookup "tableName" = some (.vStr t))
    (hF : args.NamedArgs.lookup "fieldName" = some (.vStr fl))
    (hO : args.NamedArgs.lookup "operator" = some (.vStr op))
    (hft : Evaluate.getFieldType dm t fl = .error e)
    (_hop : Evaluate.validTypeForFilterOperators.lookup op = none) :
    Evaluate.FilterEvaluator.Evaluate { DataModel := dm } args =
      (none, [.join [.wrap e ("field type for " ++ t ++ "." ++ fl ++
        " not found in data model in Evaluate filter"),
        .namedArgumentError "fieldName"]]) := by
  simp [Evaluate.FilterEvaluator.Evaluate, Evaluate.AdaptNamedArgument, hT, hF, hO,
    Evaluate.adaptArgumentToString, hft, Evaluate.MakeEvaluateError]

/-- C9 witness: the theorem applied to the concrete orders data model with an
unknown field and an operator string outside the filter-operator table. -/
theorem filter_field_resolution_checked_before_operator_witness :
    Evaluate.FilterEvaluator.Evaluate { DataModel := Evaluate.modelsOrders }
      { Args := [],
        NamedArgs := [("tableName", .vStr "orders"), ("fieldName", .vStr "missing_field"),
          ("operator", .vStr "bogus-operator")] } =
      (none, [.join [.wrap .notFoundInDataModel
        ("field type for " ++ "orders" ++ "." ++ "missing_field" ++
          " not found in data model in Evaluate filter"),
        .namedArgumentError "fieldName"]]) :=
  filter_field_resolution_checked_before_operator Evaluate.modelsOrders
    { Args := [],
      NamedArgs := [("tableName", .vStr "orders"), ("fieldName", .vStr "missing_field"),
        ("operator", .vStr "bogus-operator")] }
    "orders" "missing_field" "bogus-operator" .notFoundInDataModel
    rfl rfl rfl rfl rfl

/-- Helper: every entry of the registry populated by the src operators
package constructs a boolean operator. -/
theorem operatorFromType_entries (ty : String) :
    Operators.operatorFromType.lookup ty = none ∨
      ∃ k, Operators.operatorFromType.lookup ty =
        some (Operators.RegistryEntry.boolOp k) := by
  simp only [Operators.operatorFromType, List.lookup]
  cases h1 : ty == "TRUE"
  · cases h2 : ty == "FALSE"
    · cases h3 : ty == "EQBOOL"
      · exact Or.inl rfl
      · exact Or.inr ⟨Operators.BoolOpKind.kEqBool, rfl⟩
    · exact Or.inr ⟨Operators.BoolOpKind.kFalse, rfl⟩
  · exact Or.inr ⟨Operators.BoolOpKind.kTrue, rfl⟩

/-- Helper: a well-shaped envelope tree all of whose nodes are registered
decodes successfully against the src registry. -/
theorem decode_ok_of_registered (env : Operators.Envelope)
    (hshape : Operators.wellShaped Operators.operatorFromType env = true)
    (hreg : Operators.hasUnregisteredNode Operators.operatorFromType env = false) :
    ∃ op, Operators.unmarshalOperatorBool Operators.operatorFromType env =
      .ok op := by
  induction env with
  | strData ty s =>
    rcases operatorFromType_entries ty with h | ⟨k, h⟩
    · simp [Operators.hasUnregisteredNode, h] at hreg
    · cases k with
      | kTrue => exact ⟨.trueOp, by simp [Operators.unmarshalOperatorBool, h]⟩
      | kFalse => exact ⟨.falseOp, by simp [Operators.unmarshalOperatorBool, h]⟩
      | kEqBool => simp [Operators.wellShaped, h] at hshape
  | objData ty l r ihl ihr =>
    rcases operatorFromType_entries ty with h | ⟨k, h⟩
    · simp [Operators.hasUnregisteredNode, h] at hreg
    · cases k with
      | kTrue => exact ⟨.trueOp, by simp [Operators.unmarshalOperatorBool, h]⟩
      | kFalse => exact ⟨.falseOp, by simp [Operators.unmarshalOperatorBool, h]⟩
      | kEqBool =>
        simp only [Operators.hasUnregisteredNode, h, Bool.or_eq_false_iff] at hreg
        simp only [Operators.wellShaped, Bool.and_eq_true] at hshape
        obtain ⟨opl, hl⟩ := ihl hshape.1 hreg.1
        obtain ⟨opr, hr⟩ := ihr hshape.2 hreg.2
        exact ⟨.eqBool opl opr, by simp [Operators.unmarshalOperatorBool, h, hl, hr]⟩

/-- C2: decoding a well-shaped serialized operator tree that contains at
least one node whose discriminator is not registered fails the decode of the
whole tree - no partial tree is returned - with an error whose root cause is
the not-registered error naming an unregistered discriminator, propagated
from any nested operand slot up to the root decode. -/
theorem decode_fails_on_unregistered_node (env : Operators.Envelope)
    (hshape : Operators.wellShaped Operators.operatorFromType env = true)
    (hunreg : Operators.hasUnregisteredNode Operators.operatorFromType env = true) :
    ∃ ty e, Operators.unmarshalOperatorBool Operators.operatorFromType env = .error e
      ∧ e.rootCause = .notRegistered ty
      ∧ Operators.operatorFromType.lookup ty = none := by
  induction env with
  | strData ty s =>
    simp only [Operators.hasUnregisteredNode, Option.isNone_iff_eq_none] at hunreg
    exact ⟨ty, .notRegistered ty,
      by simp [Operators.unmarshalOperatorBool, hunreg], rfl, hunreg⟩
  | objData ty l r ihl ihr =>
    rcases operatorFromType_entries ty with h | ⟨k, h⟩
    · exact ⟨ty, .notRegistered ty,
        by simp [Operators.unmarshalOperatorBool, h], rfl, h⟩
    · cases k with
      | kTrue => simp [Operators.hasUnregisteredNode, h] at hunreg
      | kFalse => simp [Operators.hasUnregisteredNode, h] at hunreg
      | kEqBool =>
        simp only [Operators.hasUnregisteredNode, h, Bool.or_eq_true] at hunreg
        simp only [Operators.wellShaped, Bool.and_eq_true] at hshape
        cases hul : Operators.hasUnregisteredNode Operators.operatorFromType l with
        | true =>
          obtain ⟨ty0, e0, hd, hroot, hnone⟩ := ihl hshape.1 hul
          exact ⟨ty0, .unmarshalFailed ty (.leftOperand e0),
            by simp [Operators.unmarshalOperatorBool, h, hd],
            by simp [Operators.UnmarshalError.rootCause, hroot], hnone⟩
        | false =>
          have hur : Operators.hasUnregisteredNode Operators.operatorFromType r = true := by
            rcases hunreg with h1 | h1
            · rw [hul] at h1; exact absurd h1 (by simp)
            · exact h1
          obtain ⟨opl, hdl⟩ := decode_ok_of_registered l hshape.1 hul
          obtain ⟨ty0, e0, hd, hroot, hnone⟩ := ihr hshape.2 hur
          exact ⟨ty0, .unmarshalFailed ty (.rightOperand e0),
            by simp [Operators.unmarshalOperatorBool, h, hdl, hd],
            by simp [Operators.UnmarshalError.rootCause, hroot], hnone⟩

/-- C2 witness: the theorem applied to an EQBOOL envelope whose right
operand slot carries the unregistered discriminator BOGUS. -/
theorem decode_fails_on_unregistered_node_witness :
    ∃ ty e, Operators.unmarshalOperatorBool Operators.operatorFromType
        Operators.envelopeWithBogusRight = .error e
      ∧ e.rootCause = .notRegistered ty
      ∧ Operators.operatorFromType.lookup ty = none :=
  decode_fails_on_unregistered_node Operators.envelopeWithBogusRight
    (by decide) (by decide)

/-- C5: for every operator tree built from the supported variants (TRUE,
FALSE, EQBOOL), decoding the encoding yields exactly the original tree: same
discriminators, same operand tree. -/
theorem decode_encode_roundtrip (op : Operators.OperatorBool) :
    Operators.unmarshalOperatorBool Operators.operatorFromType op.MarshalJSON =
      .ok op := by
  induction op with
  | trueOp => rfl
  | falseOp => rfl
  | eqBool l r ihl ihr =>
    have hlk : Operators.operatorFromType.lookup "EQBOOL" =
        some (Operators.RegistryEntry.boolOp Operators.BoolOpKind.kEqBool) := rfl
    simp [Operators.OperatorBool.MarshalJSON, Operators.unmarshalOperatorBool,
      hlk, ihl, ihr]

/-- C10: decoding a boolean operand slot whose envelope carries a
discriminator that is registered, but whose registered constructor builds an
operator that is not a boolean operator, fails with the cast error naming
that discriminator: registration alone does not let a node decode in a
boolean position. -/
theorem decode_registered_nonbool_fails
    (registry : List (String × Operators.RegistryEntry)) (env : Operators.Envelope)
    (hreg : registry.lookup env.typeOf = some .nonBoolOp) :
    Operators.unmarshalOperatorBool registry env =
      .error (.castToBoolFailed env.typeOf) := by
  cases env with
  | strData ty s =>
    simp only [Operators.Envelope.typeOf] at hreg
    simp [Operators.unmarshalOperatorBool, Operators.Envelope.typeOf, hreg]
  | objData ty l r =>
    simp only [Operators.Envelope.typeOf] at hreg
    simp [Operators.unmarshalOperatorBool, Operators.Envelope.typeOf, hreg]

/-- C10 witness: the theorem applied to a registry extended with a
non-boolean operator registration. -/
theorem decode_registered_nonbool_fails_witness :
    Operators.unmarshalOperatorBool
      (("PAYLOAD_FLOAT", Operators.RegistryEntry.nonBoolOp) :: Operators.operatorFromType)
      (.strData "PAYLOAD_FLOAT" "") =
      .error (.castToBoolFailed "PAYLOAD_FLOAT") :=
  decode_registered_nonbool_fails
    (("PAYLOAD_FLOAT", Operators.RegistryEntry.nonBoolOp) :: Operators.operatorFromType)
    (.strData "PAYLOAD_FLOAT" "") (by decide)

end Marble
